import Mathlib

/-!
Verification development for the JusticeAI fairness library.

The Python sources are shallowly embedded:

* post-training metrics (`justiceai/core/metrics/posttrain.py`) work on parallel
  lists: binary predictions/labels become `List Bool`, the sensitive attribute
  becomes `List G` for a type `G` with decidable equality, and float arithmetic
  on exact decimal/ratio values becomes `ℚ`;
* pre-training metrics (`justiceai/core/metrics/pretrain.py`) and the drift /
  alerting modules (`justiceai/monitoring/`) use `ℝ`, since they take logarithms;
* the calculator facade (`justiceai/core/metrics/calculator.py`) becomes an
  explicit state-passing function returning `Except` for `raise ValueError`.
-/

namespace JusticeAI

/-- `pandas.Series.unique`: distinct values in order of first appearance.
`seen` accumulates the values already emitted. -/
def pdUniqueAux {G : Type} [DecidableEq G] (seen : List G) : List G → List G
  | [] => []
  | a :: t => if a ∈ seen then pdUniqueAux seen t else a :: pdUniqueAux (a :: seen) t

/-- Distinct values of a series in order of first appearance (`Series.unique`). -/
def pdUnique {G : Type} [DecidableEq G] (l : List G) : List G := pdUniqueAux [] l

/-- Boolean-mask selection `v[sensitive_attr == group]` on parallel arrays. -/
def maskP {G : Type} [DecidableEq G] {α : Type} (attr : List G) (v : List α) (g : G) : List α :=
  ((attr.zip v).filter (fun p => decide (p.1 = g))).map Prod.snd

/-- `np.mean` of a 0/1 prediction vector, with the `if len > 0 else 0.0` guard
used by `statistical_parity` and `disparate_impact`. -/
def meanBool (l : List Bool) : ℚ :=
  if l.length = 0 then 0 else (l.countP id : ℚ) / (l.length : ℚ)

/-- Python `max(l)` compensated as in the sources: `max(l) if l else 0.0`. -/
def listMax : List ℚ → ℚ
  | [] => 0
  | a :: t => t.foldl max a

/-- Python `min(l)` compensated as in the sources: `min(l) if l else 0.0`. -/
def listMin : List ℚ → ℚ
  | [] => 0
  | a :: t => t.foldl min a

/-- Python `max(d, key=d.get)` over an association list: the first key whose
value is maximal (later entries replace only on strictly greater value). -/
def argmaxKey {G : Type} : List (G × ℚ) → Option G
  | [] => none
  | p :: t => some (t.foldl (fun best q => if q.2 > best.2 then q else best) p).1

/-- Python `min(d, key=d.get)` over an association list: the first key whose
value is minimal. -/
def argminKey {G : Type} : List (G × ℚ) → Option G
  | [] => none
  | p :: t => some (t.foldl (fun best q => if q.2 < best.2 then q else best) p).1

/-- Per-group entry of `statistical_parity`'s `by_group` dictionary. -/
structure SPGroupStats where
  selection_rate : ℚ
  total_samples : ℕ
deriving DecidableEq

/-- Result dictionary of `statistical_parity`. -/
structure SPResult (G : Type) where
  by_group : List (G × SPGroupStats)
  difference : ℚ
  ratio : ℚ
  is_fair : Bool
deriving DecidableEq

/-- `posttrain.statistical_parity`. -/
def statistical_parity {G : Type} [DecidableEq G]
    (y_pred : List Bool) (sensitive_attr : List G) : SPResult G :=
  let by_group := (pdUnique sensitive_attr).map (fun g =>
    let group_preds := maskP sensitive_attr y_pred g
    (g, SPGroupStats.mk (meanBool group_preds) group_preds.length))
  let selection_rates := by_group.map (fun p => p.2.selection_rate)
  let max_rate := listMax selection_rates
  let min_rate := listMin selection_rates
  let difference := max_rate - min_rate
  let ratio := if 0 < max_rate then min_rate / max_rate else 1
  ⟨by_group, difference, ratio, decide (difference < 1/10)⟩

/-- Result dictionary of `disparate_impact`. -/
structure DIResult (G : Type) where
  ratio : ℚ
  passes_80_rule : Bool
  advantaged_group : Option G
  disadvantaged_group : Option G
  by_group : List (G × ℚ)
deriving DecidableEq

/-- `posttrain.disparate_impact`. -/
def disparate_impact {G : Type} [DecidableEq G]
    (y_pred : List Bool) (sensitive_attr : List G) : DIResult G :=
  let selection_rates := (pdUnique sensitive_attr).map (fun g =>
    (g, meanBool (maskP sensitive_attr y_pred g)))
  match selection_rates with
  | [] => ⟨1, true, none, none, []⟩
  | p :: t =>
    let vals := (p :: t).map Prod.snd
    let max_rate := listMax vals
    let min_rate := listMin vals
    let ratio := if 0 < max_rate then min_rate / max_rate else 1
    ⟨ratio, decide ((8/10 : ℚ) ≤ ratio), argmaxKey (p :: t), argminKey (p :: t), p :: t⟩

/-- Per-group entry of `equal_opportunity`'s `by_group`. -/
structure EOGroupStats where
  tpr : ℚ
  true_positives : ℕ
  false_negatives : ℕ
deriving DecidableEq

/-- Result dictionary of `equal_opportunity`. -/
structure EOResult (G : Type) where
  by_group : List (G × EOGroupStats)
  difference : ℚ
  is_fair : Bool
deriving DecidableEq

/-- `posttrain.equal_opportunity`.  The pair component `.1` is the true label,
`.2` the prediction. -/
def equal_opportunity {G : Type} [DecidableEq G]
    (y_true y_pred : List Bool) (sensitive_attr : List G) : EOResult G :=
  let by_group := (pdUnique sensitive_attr).map (fun g =>
    let pairs := maskP sensitive_attr (y_true.zip y_pred) g
    let tp := pairs.countP (fun r => r.1 && r.2)
    let fn := pairs.countP (fun r => r.1 && !r.2)
    let tpr : ℚ := if 0 < tp + fn then (tp : ℚ) / ((tp : ℚ) + (fn : ℚ)) else 0
    (g, EOGroupStats.mk tpr tp fn))
  let tprs := by_group.map (fun p => p.2.tpr)
  let difference := if tprs = [] then 0 else listMax tprs - listMin tprs
  ⟨by_group, difference, decide (difference < 1/10)⟩

/-- Per-group entry of `equalized_odds`'s `by_group`. -/
structure EOddsGroupStats where
  tpr : ℚ
  fpr : ℚ
  tp : ℕ
  tn : ℕ
  fp : ℕ
  fn : ℕ
deriving DecidableEq

/-- Result dictionary of `equalized_odds`. -/
structure EOddsResult (G : Type) where
  by_group : List (G × EOddsGroupStats)
  tpr_difference : ℚ
  fpr_difference : ℚ
  is_fair : Bool
deriving DecidableEq

/-- `posttrain.equalized_odds`. -/
def equalized_odds {G : Type} [DecidableEq G]
    (y_true y_pred : List Bool) (sensitive_attr : List G) : EOddsResult G :=
  let by_group := (pdUnique sensitive_attr).map (fun g =>
    let pairs := maskP sensitive_attr (y_true.zip y_pred) g
    let tp := pairs.countP (fun r => r.1 && r.2)
    let tn := pairs.countP (fun r => !r.1 && !r.2)
    let fp := pairs.countP (fun r => !r.1 && r.2)
    let fn := pairs.countP (fun r => r.1 && !r.2)
    let tpr : ℚ := if 0 < tp + fn then (tp : ℚ) / ((tp : ℚ) + (fn : ℚ)) else 0
    let fpr : ℚ := if 0 < fp + tn then (fp : ℚ) / ((fp : ℚ) + (tn : ℚ)) else 0
    (g, EOddsGroupStats.mk tpr fpr tp tn fp fn))
  let tprs := by_group.map (fun p => p.2.tpr)
  let fprs := by_group.map (fun p => p.2.fpr)
  let tpr_diff := if tprs = [] then 0 else listMax tprs - listMin tprs
  let fpr_diff := if fprs = [] then 0 else listMax fprs - listMin fprs
  ⟨by_group, tpr_diff, fpr_diff, decide (tpr_diff < 1/10) && decide (fpr_diff < 1/10)⟩

/-- Per-group confusion-matrix entry of `confusion_matrix_by_group`. -/
structure CMGroupStats where
  TP : ℕ
  TN : ℕ
  FP : ℕ
  FN : ℕ
  total : ℕ
deriving DecidableEq

/-- `posttrain.confusion_matrix_by_group` (`sklearn.confusion_matrix` with
`labels=[0,1]` yields exactly these four counts). -/
def confusion_matrix_by_group {G : Type} [DecidableEq G]
    (y_true y_pred : List Bool) (sensitive_attr : List G) : List (G × CMGroupStats) :=
  (pdUnique sensitive_attr).map (fun g =>
    let pairs := maskP sensitive_attr (y_true.zip y_pred) g
    (g, CMGroupStats.mk
      (pairs.countP (fun r => r.1 && r.2))
      (pairs.countP (fun r => !r.1 && !r.2))
      (pairs.countP (fun r => !r.1 && r.2))
      (pairs.countP (fun r => r.1 && !r.2))
      pairs.length))

/-- Per-group entry of `false_negative_rate_difference`'s `by_group`. -/
structure FNRGroupStats where
  fnr : ℚ
  false_negatives : ℕ
  true_positives : ℕ
deriving DecidableEq

/-- Result dictionary of `false_negative_rate_difference`. -/
structure FNRResult (G : Type) where
  by_group : List (G × FNRGroupStats)
  difference : ℚ
  is_fair : Bool
deriving DecidableEq

/-- `posttrain.false_negative_rate_difference`. -/
def false_negative_rate_difference {G : Type} [DecidableEq G]
    (y_true y_pred : List Bool) (sensitive_attr : List G) : FNRResult G :=
  let by_group := (pdUnique sensitive_attr).map (fun g =>
    let pairs := maskP sensitive_attr (y_true.zip y_pred) g
    let fn := pairs.countP (fun r => r.1 && !r.2)
    let tp := pairs.countP (fun r => r.1 && r.2)
    let fnr : ℚ := if 0 < fn + tp then (fn : ℚ) / ((fn : ℚ) + (tp : ℚ)) else 0
    (g, FNRGroupStats.mk fnr fn tp))
  let fnrs := by_group.map (fun p => p.2.fnr)
  let difference := if fnrs = [] then 0 else listMax fnrs - listMin fnrs
  ⟨by_group, difference, decide (difference < 1/10)⟩

/-- Per-group entry of `predictive_parity`'s `by_group`. -/
structure PPVGroupStats where
  ppv : ℚ
  precision : ℚ
  true_positives : ℕ
  false_positives : ℕ
deriving DecidableEq

/-- Result dictionary of `predictive_parity`. -/
structure PPVResult (G : Type) where
  by_group : List (G × PPVGroupStats)
  difference : ℚ
  is_fair : Bool
deriving DecidableEq

/-- `posttrain.predictive_parity`. -/
def predictive_parity {G : Type} [DecidableEq G]
    (y_true y_pred : List Bool) (sensitive_attr : List G) : PPVResult G :=
  let by_group := (pdUnique sensitive_attr).map (fun g =>
    let pairs := maskP sensitive_attr (y_true.zip y_pred) g
    let tp := pairs.countP (fun r => r.1 && r.2)
    let fp := pairs.countP (fun r => !r.1 && r.2)
    let ppv : ℚ := if 0 < tp + fp then (tp : ℚ) / ((tp : ℚ) + (fp : ℚ)) else 0
    (g, PPVGroupStats.mk ppv ppv tp fp))
  let ppvs := by_group.map (fun p => p.2.ppv)
  let difference := if ppvs = [] then 0 else listMax ppvs - listMin ppvs
  ⟨by_group, difference, decide (difference < 1/10)⟩

/-- Per-group entry of `negative_predictive_parity`'s `by_group`. -/
structure NPVGroupStats where
  npv : ℚ
  true_negatives : ℕ
  false_negatives : ℕ
deriving DecidableEq

/-- Result dictionary of `negative_predictive_parity`. -/
structure NPVResult (G : Type) where
  by_group : List (G × NPVGroupStats)
  difference : ℚ
  is_fair : Bool
deriving DecidableEq

/-- `posttrain.negative_predictive_parity`. -/
def negative_predictive_parity {G : Type} [DecidableEq G]
    (y_true y_pred : List Bool) (sensitive_attr : List G) : NPVResult G :=
  let by_group := (pdUnique sensitive_attr).map (fun g =>
    let pairs := maskP sensitive_attr (y_true.zip y_pred) g
    let tn := pairs.countP (fun r => !r.1 && !r.2)
    let fn := pairs.countP (fun r => r.1 && !r.2)
    let npv : ℚ := if 0 < tn + fn then (tn : ℚ) / ((tn : ℚ) + (fn : ℚ)) else 0
    (g, NPVGroupStats.mk npv tn fn))
  let npvs := by_group.map (fun p => p.2.npv)
  let difference := if npvs = [] then 0 else listMax npvs - listMin npvs
  ⟨by_group, difference, decide (difference < 1/10)⟩

/-- Per-group entry of `accuracy_difference`'s `by_group`. -/
structure AccGroupStats where
  accuracy : ℚ
  correct : ℕ
  total : ℕ
deriving DecidableEq

/-- Result dictionary of `accuracy_difference`. -/
structure AccResult (G : Type) where
  by_group : List (G × AccGroupStats)
  difference : ℚ
  is_fair : Bool
deriving DecidableEq

/-- `posttrain.accuracy_difference` (note the stricter `0.05` threshold). -/
def accuracy_difference {G : Type} [DecidableEq G]
    (y_true y_pred : List Bool) (sensitive_attr : List G) : AccResult G :=
  let by_group := (pdUnique sensitive_attr).map (fun g =>
    let pairs := maskP sensitive_attr (y_true.zip y_pred) g
    let correct := pairs.countP (fun r => r.1 == r.2)
    let total := pairs.length
    let accuracy : ℚ := if 0 < total then (correct : ℚ) / (total : ℚ) else 0
    (g, AccGroupStats.mk accuracy correct total))
  let accs := by_group.map (fun p => p.2.accuracy)
  let difference := if accs = [] then 0 else listMax accs - listMin accs
  ⟨by_group, difference, decide (difference < 1/20)⟩

/-- Per-group entry of `treatment_equality`'s `by_group`; `fn_fp_ratio = none`
models the Python `None` stored when the `FN/FP` ratio is infinite. -/
structure TEGroupStats where
  fn_fp_ratio : Option ℚ
  false_negatives : ℕ
  false_positives : ℕ
deriving DecidableEq

/-- Result dictionary of `treatment_equality`. -/
structure TEResult (G : Type) where
  by_group : List (G × TEGroupStats)
  difference : ℚ
  is_fair : Bool
deriving DecidableEq

/-- `posttrain.treatment_equality`: the group ratio is `fn/fp` when `fp > 0`,
`float("inf")` (stored as `None`) when `fp = 0 < fn`, and `1.0` when both are
zero; the max−min difference is taken over the finite ratios only, defaulting
to `0.0` when fewer than two remain. -/
def treatment_equality {G : Type} [DecidableEq G]
    (y_true y_pred : List Bool) (sensitive_attr : List G) : TEResult G :=
  let by_group := (pdUnique sensitive_attr).map (fun g =>
    let pairs := maskP sensitive_attr (y_true.zip y_pred) g
    let fn := pairs.countP (fun r => r.1 && !r.2)
    let fp := pairs.countP (fun r => !r.1 && r.2)
    let r : Option ℚ :=
      if 0 < fp then some ((fn : ℚ) / (fp : ℚ)) else if 0 < fn then none else some 1
    (g, TEGroupStats.mk r fn fp))
  let ratios := by_group.filterMap (fun p => p.2.fn_fp_ratio)
  let difference := if 1 < ratios.length then listMax ratios - listMin ratios else 0
  ⟨by_group, difference, decide (difference < 2/10)⟩

/-- `np.mean` of a rational list (`0` on the empty list, matching the guarded
uses in the sources). -/
def meanQ (l : List ℚ) : ℚ :=
  if l.length = 0 then 0 else l.sum / (l.length : ℚ)

/-- `np.digitize(x, np.linspace(0, 1, n_bins + 1)) - 1` then
`np.clip(·, 0, n_bins - 1)`: the calibration bin of a probability. -/
def binIndex (n_bins : ℕ) (x : ℚ) : ℕ :=
  let edges := (List.range (n_bins + 1)).map (fun j => (j : ℚ) / (n_bins : ℚ))
  min (n_bins - 1) (edges.countP (fun e => decide (e ≤ x)) - 1)

/-- Per-group entry of `calibration_by_group`'s `by_group`. -/
structure CalibGroupStats where
  expected_calibration_error : ℚ
  n_bins : ℕ
deriving DecidableEq

/-- Result dictionary of `calibration_by_group`. -/
structure CalibResult (G : Type) where
  by_group : List (G × CalibGroupStats)
  difference : ℚ
  is_fair : Bool
deriving DecidableEq

/-- `posttrain.calibration_by_group`.  The pair component `.1` is the true
label, `.2` the predicted probability. -/
def calibration_by_group {G : Type} [DecidableEq G]
    (y_true : List Bool) (y_pred_proba : List ℚ) (sensitive_attr : List G)
    (n_bins : ℕ) : CalibResult G :=
  let by_group := (pdUnique sensitive_attr).map (fun g =>
    let pairs := maskP sensitive_attr (y_true.zip y_pred_proba) g
    let calibration_errors := (List.range n_bins).filterMap (fun i =>
      let in_bin := pairs.filter (fun r => decide (binIndex n_bins r.2 = i))
      if 0 < in_bin.length then
        let predicted_prob := meanQ (in_bin.map Prod.snd)
        let actual_rate := meanQ (in_bin.map (fun r => if r.1 then (1 : ℚ) else 0))
        some |actual_rate - predicted_prob|
      else none)
    let ece := if calibration_errors = [] then 0 else meanQ calibration_errors
    (g, CalibGroupStats.mk ece n_bins))
  let eces := by_group.map (fun p => p.2.expected_calibration_error)
  let difference := if eces = [] then 0 else listMax eces - listMin eces
  ⟨by_group, difference, decide (difference < 1/20)⟩

section PretrainWorld

open Classical

/-- `dist / np.sum(dist)`: normalization of a discrete distribution vector. -/
noncomputable def normalizeDist {n : ℕ} (d : Fin n → ℝ) : Fin n → ℝ :=
  fun i => d i / ∑ j, d j

/-- The treatment `kl_divergence` applies to each argument: normalize, add
`epsilon = 1e-10`, re-normalize. -/
noncomputable def epsSmooth {n : ℕ} (d : Fin n → ℝ) : Fin n → ℝ :=
  normalizeDist (fun i => normalizeDist d i + 1 / 10 ^ 10)

/-- `pretrain.kl_divergence`: both inputs are normalized, smoothed by
`epsilon = 1e-10`, re-normalized, and then `sum(d1 * log(d1 / d2))` is taken
(natural logarithm). -/
noncomputable def kl_divergence {n : ℕ} (dist1 dist2 : Fin n → ℝ) : ℝ :=
  ∑ i, epsSmooth dist1 i * Real.log (epsSmooth dist1 i / epsSmooth dist2 i)

/-- The mixture `m = 0.5 * (dist1 + dist2)` of the two normalized inputs used
by `js_divergence`. -/
noncomputable def jsMid {n : ℕ} (dist1 dist2 : Fin n → ℝ) : Fin n → ℝ :=
  fun i => (1 / 2) * (normalizeDist dist1 i + normalizeDist dist2 i)

/-- `pretrain.js_divergence`: `0.5*KL(d1,m) + 0.5*KL(d2,m)` converted from nats
to bits by dividing by `log 2`, then clipped above by `min(·, 1.0)`. -/
noncomputable def js_divergence {n : ℕ} (dist1 dist2 : Fin n → ℝ) : ℝ :=
  min (((1 / 2) * kl_divergence (normalizeDist dist1) (jsMid dist1 dist2)
      + (1 / 2) * kl_divergence (normalizeDist dist2) (jsMid dist1 dist2)) / Real.log 2) 1

/-- `scipy.stats.entropy` with natural base: the input is normalized by its
sum and `-sum(entr)` is returned, where `entr x = x * log x` with `entr 0 = 0`. -/
noncomputable def scipyEntropy (pk : List ℝ) : ℝ :=
  -((pk.map (fun x =>
      if x / pk.sum = 0 then 0 else (x / pk.sum) * Real.log (x / pk.sum))).sum)

/-- Python `max` over a list of naturals (`0` on the empty list; the sources
only call it on non-empty lists). -/
def listMaxNat : List ℕ → ℕ
  | [] => 0
  | a :: t => t.foldl max a

/-- Per-group entry of `class_balance`'s result (the `class_distribution`
dictionary is kept in first-appearance order rather than `value_counts`'s
frequency order; only its contents matter to the derived numbers). -/
structure ClassBalanceGroup (L : Type) where
  class_distribution : List (L × ℕ)
  majority_class_ratio : ℝ
  balance_score : ℝ
  total_samples : ℕ

/-- `pretrain.class_balance` over integer-coded labels. -/
noncomputable def class_balance {G : Type} [DecidableEq G]
    (y : List ℤ) (sensitive_attr : List G) : List (G × ClassBalanceGroup ℤ) :=
  (pdUnique sensitive_attr).map (fun g =>
    let y_group := maskP sensitive_attr y g
    let class_counts := (pdUnique y_group).map (fun c =>
      (c, y_group.countP (fun z => decide (z = c))))
    let total := y_group.length
    let majority_ratio : ℝ :=
      if 0 < total then (listMaxNat (class_counts.map Prod.snd) : ℝ) / (total : ℝ) else 0
    let n_classes := class_counts.length
    let balance_score : ℝ :=
      if n_classes ≤ 1 then 0
      else scipyEntropy (class_counts.map (fun p => (p.2 : ℝ) / (total : ℝ)))
        / Real.log (n_classes : ℝ)
    (g, ClassBalanceGroup.mk class_counts majority_ratio balance_score total))

/-- Result dictionary of `concept_balance`. -/
structure ConceptBalanceResult where
  mutual_information : ℝ
  normalized_mi : ℝ

/-- `pretrain.concept_balance`: mutual information between the sensitive
attribute and the target over the contingency table, in bits, normalized by
the target entropy.  The feature matrix is unused by the source and is
modelled by its row count. -/
noncomputable def concept_balance {G : Type} [DecidableEq G]
    (X : ℕ) (y : List ℤ) (sensitive_attr : List G) : ConceptBalanceResult :=
  let rows := sensitive_attr.zip y
  let total := rows.length
  let groups := pdUnique sensitive_attr
  let classes := pdUnique y
  let pJ := fun (g : G) (c : ℤ) =>
    (rows.countP (fun r => decide (r.1 = g ∧ r.2 = c)) : ℝ) / (total : ℝ)
  let pG := fun (g : G) => (rows.countP (fun r => decide (r.1 = g)) : ℝ) / (total : ℝ)
  let pC := fun (c : ℤ) => (rows.countP (fun r => decide (r.2 = c)) : ℝ) / (total : ℝ)
  let mi := (groups.map (fun g => (classes.map (fun c =>
      if 0 < pJ g c
      then pJ g c * (Real.log (pJ g c / (pG g * pC c)) / Real.log 2)
      else 0)).sum)).sum
  let h_y := -((classes.map (fun c =>
      if pC c = 0 then 0 else pC c * Real.log (pC c))).sum) / Real.log 2
  ⟨mi, if 0 < h_y then mi / h_y else 0⟩

/-- Insert into a sorted list of integers (ascending). -/
def insertSorted (x : ℤ) : List ℤ → List ℤ
  | [] => [x]
  | a :: t => if x ≤ a then x :: a :: t else a :: insertSorted x t

/-- `sorted(...)` for integer class labels. -/
def sortInt (l : List ℤ) : List ℤ := l.foldr insertSorted []

/-- The ordered pairs `(groups[i], groups[j])` with `i < j`, as produced by the
nested loops of `group_distribution_difference`. -/
def pairsOf {G : Type} : List G → List (G × G)
  | [] => []
  | a :: t => t.map (fun b => (a, b)) ++ pairsOf t

/-- Pairwise divergence entry of `group_distribution_difference`'s result. -/
structure GroupDivergences where
  kl_divergence : ℝ
  js_divergence : ℝ

/-- `pretrain.group_distribution_difference`: for each pair of groups, the
per-group class distributions are aligned over the sorted union of observed
classes and compared with `kl_divergence` / `js_divergence`.  Keys are the
group pairs themselves rather than the `f"{g1}_vs_{g2}"` strings. -/
noncomputable def group_distribution_difference {G : Type} [DecidableEq G]
    (y : List ℤ) (sensitive_attr : List G) : List ((G × G) × GroupDivergences) :=
  (pairsOf (pdUnique sensitive_attr)).map (fun gg =>
    let y1 := maskP sensitive_attr y gg.1
    let y2 := maskP sensitive_attr y gg.2
    let all_classes := sortInt (pdUnique (y1 ++ y2))
    let d1 : Fin all_classes.length → ℝ := fun i =>
      (y1.countP (fun z => decide (z = all_classes.get i)) : ℝ) / (y1.length : ℝ)
    let d2 : Fin all_classes.length → ℝ := fun i =>
      (y2.countP (fun z => decide (z = all_classes.get i)) : ℝ) / (y2.length : ℝ)
    (gg, GroupDivergences.mk (kl_divergence d1 d2) (js_divergence d1 d2)))

end PretrainWorld

/-- The dictionary returned by `calculate_pretrain_metrics`. -/
structure PretrainResults (G : Type) where
  class_balance : List (G × ClassBalanceGroup ℤ)
  concept_balance : ConceptBalanceResult
  group_distribution_difference : List ((G × G) × GroupDivergences)

/-- The dictionary returned by `calculate_posttrain_metrics`; `calibration` is
present exactly when predicted probabilities were supplied. -/
structure PosttrainResults (G : Type) where
  statistical_parity : SPResult G
  disparate_impact : DIResult G
  equal_opportunity : EOResult G
  equalized_odds : EOddsResult G
  confusion_matrix : List (G × CMGroupStats)
  false_negative_rate_diff : FNRResult G
  predictive_parity : PPVResult G
  negative_predictive_parity : NPVResult G
  accuracy_difference : AccResult G
  treatment_equality : TEResult G
  calibration : Option (CalibResult G)
deriving DecidableEq

/-- The body of `calculate_posttrain_metrics` once validation and the cache
have been passed: every post-training metric on the given inputs. -/
def computePosttrain {G : Type} [DecidableEq G]
    (y_true y_pred : List Bool) (sensitive_attr : List G)
    (y_pred_proba : Option (List ℚ)) : PosttrainResults G :=
  ⟨statistical_parity y_pred sensitive_attr,
   disparate_impact y_pred sensitive_attr,
   equal_opportunity y_true y_pred sensitive_attr,
   equalized_odds y_true y_pred sensitive_attr,
   confusion_matrix_by_group y_true y_pred sensitive_attr,
   false_negative_rate_difference y_true y_pred sensitive_attr,
   predictive_parity y_true y_pred sensitive_attr,
   negative_predictive_parity y_true y_pred sensitive_attr,
   accuracy_difference y_true y_pred sensitive_attr,
   treatment_equality y_true y_pred sensitive_attr,
   y_pred_proba.map (fun p => calibration_by_group y_true p sensitive_attr 10)⟩

/-- The body of `calculate_pretrain_metrics` once validation and the cache
have been passed. -/
noncomputable def computePretrain {G : Type} [DecidableEq G]
    (X : ℕ) (y : List ℤ) (sensitive_attr : List G) : PretrainResults G :=
  ⟨class_balance y sensitive_attr,
   concept_balance X y sensitive_attr,
   group_distribution_difference y sensitive_attr⟩

/-- The mutable state of a `FairnessCalculator`: the `cache_results` flag, the
cache entries under the fixed keys `"pretrain"` and `"posttrain"`, and the
`_validated` flag. -/
structure CalcState (G : Type) where
  cache_results : Bool
  cache_pretrain : Option (PretrainResults G)
  cache_posttrain : Option (PosttrainResults G)
  validated : Bool

/-- `FairnessCalculator.__init__(cache_results)`. -/
def mkFairnessCalculator (G : Type) (cache_results : Bool) : CalcState G :=
  ⟨cache_results, none, none, false⟩

/-- `_validate_inputs` as called by `calculate_posttrain_metrics`
(`y_true`, `y_pred`, `y_pred_proba`, `sensitive_attr` given; `X` is `None`). -/
def validatePosttrain {G : Type} (y_true y_pred : List Bool) (sensitive_attr : List G)
    (y_pred_proba : Option (List ℚ)) : Except String Unit :=
  if y_true.length ≠ y_pred.length then
    Except.error "y_true and y_pred must have same length"
  else if y_pred.length ≠ sensitive_attr.length then
    Except.error "y_pred and sensitive_attr must have same length"
  else
    match y_pred_proba with
    | some p =>
      if p.length ≠ y_true.length then
        Except.error "y_pred_proba and y_true must have same length"
      else Except.ok ()
    | none => Except.ok ()

/-- `_validate_inputs` as called by `calculate_pretrain_metrics` (`y_true`,
`sensitive_attr`, `X` given; `y_pred` and `y_pred_proba` are `None`, so only
the `X` vs `y_true` length check fires). -/
def validatePretrain {G : Type} (X : ℕ) (y : List ℤ) (_sensitive_attr : List G) :
    Except String Unit :=
  if X ≠ y.length then Except.error "X and y_true must have same length"
  else Except.ok ()

/-- `FairnessCalculator.calculate_posttrain_metrics`: validate, then return the
cached `"posttrain"` entry if `cache_results` is set and the key is present,
otherwise compute and (if `cache_results`) store the result. -/
def calculate_posttrain_metrics {G : Type} [DecidableEq G] (s : CalcState G)
    (y_true y_pred : List Bool) (sensitive_attr : List G)
    (y_pred_proba : Option (List ℚ)) :
    Except String (PosttrainResults G × CalcState G) :=
  match validatePosttrain y_true y_pred sensitive_attr y_pred_proba with
  | Except.error e => Except.error e
  | Except.ok _ =>
    let s1 := { s with validated := true }
    match (if s1.cache_results then s1.cache_posttrain else none) with
    | some r => Except.ok (r, s1)
    | none =>
      let r := computePosttrain y_true y_pred sensitive_attr y_pred_proba
      Except.ok (r, if s1.cache_results then { s1 with cache_posttrain := some r } else s1)

/-- `FairnessCalculator.calculate_pretrain_metrics`, analogously cached under
the fixed `"pretrain"` key. -/
noncomputable def calculate_pretrain_metrics {G : Type} [DecidableEq G] (s : CalcState G)
    (X : ℕ) (y : List ℤ) (sensitive_attr : List G) :
    Except String (PretrainResults G × CalcState G) :=
  match validatePretrain X y sensitive_attr with
  | Except.error e => Except.error e
  | Except.ok _ =>
    let s1 := { s with validated := true }
    match (if s1.cache_results then s1.cache_pretrain else none) with
    | some r => Except.ok (r, s1)
    | none =>
      let r := computePretrain X y sensitive_attr
      Except.ok (r, if s1.cache_results then { s1 with cache_pretrain := some r } else s1)

/-- `FairnessCalculator.clear_cache`: `self.cache.clear()`. -/
def clear_cache {G : Type} (s : CalcState G) : CalcState G :=
  { s with cache_pretrain := none, cache_posttrain := none }

/-- The summary dictionary of `_calculate_summary`. -/
structure SummaryResult where
  overall_fairness_score : ℚ
  fairness_violations : List String
  n_violations : ℕ
  disparate_impact_ratio : ℚ
  statistical_parity_diff : ℚ
  passes_basic_fairness : Bool
deriving DecidableEq

/-- `FairnessCalculator._calculate_summary` on a post-training result: the
violation list over the four basic checks, in source order, and
`overall_score = ((total_checks - violations_count) / total_checks) * 100`
with `total_checks = 4`. -/
def calculate_summary {G : Type} (post : PosttrainResults G) : SummaryResult :=
  let violations :=
    (if post.statistical_parity.is_fair then [] else ["statistical_parity"]) ++
    (if post.disparate_impact.passes_80_rule then [] else ["disparate_impact"]) ++
    (if post.equal_opportunity.is_fair then [] else ["equal_opportunity"]) ++
    (if post.equalized_odds.is_fair then [] else ["equalized_odds"])
  let overall_score : ℚ := ((4 - (violations.length : ℚ)) / 4) * 100
  ⟨overall_score, violations, violations.length,
   post.disparate_impact.ratio, post.statistical_parity.difference,
   decide (violations.length = 0)⟩

section DriftWorld

open Classical

/-- The free-form `details` dictionary attached to a `DriftResult`: the three
methods share the baseline/new/num-drifted entries; `psi` adds
`psi_threshold` and `ks` adds `note`. -/
structure DriftDetails where
  baseline_metrics : List (String × ℝ)
  new_metrics : List (String × ℝ)
  num_drifted : ℕ
  psi_threshold : Option ℝ
  note : Option String

/-- `drift_detector.DriftResult`. -/
structure DriftResult where
  has_drift : Bool
  drifted_metrics : List (String × ℝ)
  drift_scores : List (String × ℝ)
  method : String
  threshold : ℝ
  details : DriftDetails

/-- `FairnessDriftDetector._detect_threshold`: for every baseline metric also
present in the new metrics, score `|new - baseline|`; drifted iff the score is
strictly greater than the threshold. -/
noncomputable def detect_threshold (baseline new_metrics : List (String × ℝ))
    (threshold : ℝ) : DriftResult :=
  let drift_scores := baseline.filterMap (fun kv =>
    (new_metrics.lookup kv.1).map (fun nv => (kv.1, |nv - kv.2|)))
  let drifted := drift_scores.filter (fun kv => decide (threshold < kv.2))
  ⟨decide (0 < drifted.length), drifted, drift_scores, "threshold", threshold,
   ⟨baseline, new_metrics, drifted.length, none, none⟩⟩

/-- `FairnessDriftDetector._detect_psi`: per-metric
`psi = (new_adj - baseline_adj) * log(new_adj / baseline_adj)` with the values
clamped below by `epsilon = 1e-10`; drifted iff `|psi|` exceeds
`threshold * 2.5`. -/
noncomputable def detect_psi (baseline new_metrics : List (String × ℝ))
    (threshold : ℝ) : DriftResult :=
  let drift_scores := baseline.filterMap (fun kv =>
    (new_metrics.lookup kv.1).map (fun nv =>
      let baseline_adj := max kv.2 (1 / 10 ^ 10)
      let new_adj := max nv (1 / 10 ^ 10)
      (kv.1, |(new_adj - baseline_adj) * Real.log (new_adj / baseline_adj)|)))
  let drifted := drift_scores.filter (fun kv => decide (threshold * (5/2) < kv.2))
  ⟨decide (0 < drifted.length), drifted, drift_scores, "psi", threshold,
   ⟨baseline, new_metrics, drifted.length, some (threshold * (5/2)), none⟩⟩

/-- `FairnessDriftDetector._detect_ks`: the simplified Kolmogorov-Smirnov proxy,
scoring `|new - baseline|` against the same threshold as the threshold method
but tagged `"ks"` and carrying an explanatory note. -/
noncomputable def detect_ks (baseline new_metrics : List (String × ℝ))
    (threshold : ℝ) : DriftResult :=
  let drift_scores := baseline.filterMap (fun kv =>
    (new_metrics.lookup kv.1).map (fun nv => (kv.1, |nv - kv.2|)))
  let drifted := drift_scores.filter (fun kv => decide (threshold < kv.2))
  ⟨decide (0 < drifted.length), drifted, drift_scores, "ks", threshold,
   ⟨baseline, new_metrics, drifted.length, none,
    some "Simplified KS test - for full test, provide distribution data"⟩⟩

/-- The detection method; `FairnessDriftDetector.__init__` raises unless the
method string is one of `threshold`, `psi`, `ks`, so a constructed detector
carries exactly one of these. -/
inductive DetectMethod
  | threshold
  | psi
  | ks
deriving DecidableEq

/-- `drift_detector.FairnessDriftDetector` (its constructed state). -/
structure FairnessDriftDetector where
  baseline_metrics : List (String × ℝ)
  method : DetectMethod
  threshold : ℝ
  significance_level : ℝ

/-- `FairnessDriftDetector.detect`: dispatch on the detection method. -/
noncomputable def FairnessDriftDetector.detect (d : FairnessDriftDetector)
    (new_metrics : List (String × ℝ)) : DriftResult :=
  match d.method with
  | DetectMethod.threshold => detect_threshold d.baseline_metrics new_metrics d.threshold
  | DetectMethod.psi => detect_psi d.baseline_metrics new_metrics d.threshold
  | DetectMethod.ks => detect_ks d.baseline_metrics new_metrics d.threshold

/-- `FairnessDriftDetector._assess_drift_severity`: `"none"` when nothing
drifted, otherwise `high`/`medium`/`low` from the drifted ratio and the average
drift magnitude. -/
noncomputable def assess_drift_severity (d : FairnessDriftDetector)
    (result : DriftResult) : String :=
  let num_drifted := result.drifted_metrics.length
  if num_drifted = 0 then "none"
  else
    let avg_drift := (result.drifted_metrics.map Prod.snd).sum / (num_drifted : ℝ)
    let drift_ratio := (num_drifted : ℝ) / (d.baseline_metrics.length : ℝ)
    if 1 / 2 ≤ drift_ratio ∨ d.threshold * 3 < avg_drift then "high"
    else if 1 / 4 ≤ drift_ratio ∨ d.threshold * 2 < avg_drift then "medium"
    else "low"

/-- The summary dictionary of `get_drift_summary` (`drifted_metrics` is only
present in the drift branch). -/
structure DriftSummary where
  drift_detected : Bool
  method : String
  threshold : ℝ
  num_metrics_checked : ℕ
  num_drifted : ℕ
  message : String
  drifted_metrics : Option (List String)
  severity : String

/-- `FairnessDriftDetector.get_drift_summary`. -/
noncomputable def get_drift_summary (d : FairnessDriftDetector)
    (result : DriftResult) : DriftSummary :=
  if result.has_drift then
    ⟨result.has_drift, result.method, result.threshold, d.baseline_metrics.length,
     result.drifted_metrics.length,
     "Drift detected in " ++ toString result.drifted_metrics.length ++ " metric(s)",
     some (result.drifted_metrics.map Prod.fst),
     assess_drift_severity d result⟩
  else
    ⟨result.has_drift, result.method, result.threshold, d.baseline_metrics.length,
     result.drifted_metrics.length, "No drift detected", none, "none"⟩

/-- A history entry of `MetricsDriftMonitor.add_observation`. -/
structure ObservationEntry where
  timestamp : Option String
  metrics : List (String × ℝ)
  drift_result : DriftResult

/-- `drift_detector.MetricsDriftMonitor` (its constructed state). -/
structure MetricsDriftMonitor where
  baseline_metrics : List (String × ℝ)
  window_size : ℕ
  detector : FairnessDriftDetector
  history : List ObservationEntry

/-- `MetricsDriftMonitor.__init__`: builds the inner detector with the default
significance level `0.05` and an empty history. -/
noncomputable def mkMetricsDriftMonitor (baseline_metrics : List (String × ℝ)) (window_size : ℕ)
    (method : DetectMethod) (threshold : ℝ) : MetricsDriftMonitor :=
  ⟨baseline_metrics, window_size,
   ⟨baseline_metrics, method, threshold, 1 / 20⟩, []⟩

/-- Python's `lst[-w:]`: the last `w` entries, except that `w = 0` gives
`lst[-0:] = lst[0:]`, the whole list. -/
def pySliceLast {α : Type} (w : ℕ) (l : List α) : List α :=
  if w = 0 then l else l.drop (l.length - w)

/-- `MetricsDriftMonitor.add_observation`: run the detector, append the entry,
and keep only `history[-window_size:]` once the length exceeds the window. -/
noncomputable def add_observation (m : MetricsDriftMonitor)
    (metrics : List (String × ℝ)) (timestamp : Option String) :
    DriftResult × MetricsDriftMonitor :=
  let result := m.detector.detect metrics
  let h := m.history ++ [ObservationEntry.mk timestamp metrics result]
  let h1 := if m.window_size < h.length then pySliceLast m.window_size h else h
  (result, { m with history := h1 })

/-- Fold a sequence of `(metrics, timestamp)` observations through
`add_observation`. -/
noncomputable def run_observations (m : MetricsDriftMonitor)
    (obs : List (List (String × ℝ) × Option String)) : MetricsDriftMonitor :=
  obs.foldl (fun acc o => (add_observation acc o.1 o.2).2) m

/-- The history entry that `add_observation` on detector `d` builds for an
observation `o = (metrics, timestamp)`. -/
noncomputable def obsEntry (d : FairnessDriftDetector)
    (o : List (String × ℝ) × Option String) : ObservationEntry :=
  ⟨o.2, o.1, d.detect o.1⟩

/-- `alerting.AlertConfig` (defaults: enabled, `"low"`, no channel filter,
300-second rate limit; the last two fields are never read by the alert path). -/
structure AlertConfig where
  enabled : Bool
  severity_threshold : String
  channels : Option (List String)
  rate_limit_seconds : ℕ

/-- The structured payload assembled by `send_drift_alert` and handed to each
channel. -/
structure AlertData where
  severity : String
  message : String
  drifted_metrics : List String
  drift_scores : List (String × ℝ)
  method : String
  threshold : ℝ
  timestamp : String
  num_drifted : ℕ
  num_total : ℕ

/-- An alert channel: its `send` either returns a success flag or raises. -/
def AlertChannel : Type := AlertData → Except String Bool

/-- `alerting.FairnessAlerting`: configuration plus the registered channels in
insertion order (`last_alert_time` is never consulted by `send_drift_alert`). -/
structure FairnessAlerting where
  config : AlertConfig
  channels : List (String × AlertChannel)
  last_alert_time : List (String × ℝ)

/-- The `{"low": 1, "medium": 2, "high": 3}` table with `.get(s, 1)` default. -/
def severityLevel (s : String) : ℕ :=
  if s = "low" then 1 else if s = "medium" then 2 else if s = "high" then 3 else 1

/-- `FairnessAlerting._should_alert`. -/
def should_alert (config : AlertConfig) (severity : String) : Bool :=
  decide (severityLevel config.severity_threshold ≤ severityLevel severity)

/-- Python `timestamp or "N/A"` (both `None` and the empty string are falsy). -/
def timestampOrNA (timestamp : Option String) : String :=
  match timestamp with
  | some t => if t = "" then "N/A" else t
  | none => "N/A"

/-- The alert payload of `send_drift_alert`. -/
noncomputable def alert_payload (dr : DriftResult) (det : FairnessDriftDetector)
    (timestamp : Option String) : AlertData :=
  let summary := get_drift_summary det dr
  ⟨summary.severity, summary.message, dr.drifted_metrics.map Prod.fst,
   dr.drift_scores, dr.method, dr.threshold, timestampOrNA timestamp,
   dr.drifted_metrics.length, summary.num_metrics_checked⟩

/-- The outcome recorded for one channel: the returned flag, or `False` when
the channel's `send` raised (the `except` branch of the fan-out loop). -/
def channelOutcome (r : Except String Bool) : Bool :=
  match r with
  | Except.ok b => b
  | Except.error _ => false

/-- `FairnessAlerting.send_drift_alert`: empty result when alerting is
disabled, when there is no drift, or when the computed severity is below the
configured threshold; otherwise every registered channel is attempted in order
and exceptions become `False` entries. -/
noncomputable def send_drift_alert (a : FairnessAlerting) (dr : DriftResult)
    (det : FairnessDriftDetector) (timestamp : Option String) :
    List (String × Bool) :=
  if ¬a.config.enabled then []
  else if ¬dr.has_drift then []
  else
    let summary := get_drift_summary det dr
    if ¬should_alert a.config summary.severity then []
    else
      a.channels.map (fun nc => (nc.1, channelOutcome (nc.2 (alert_payload dr det timestamp))))

end DriftWorld

/-! Concrete instances used to exhibit the behaviours at explicit inputs. -/

/-- A post-training result with all four basic checks passing. -/
def postAllFair : PosttrainResults ℕ :=
  ⟨⟨[], 0, 1, true⟩, ⟨1, true, none, none, []⟩, ⟨[], 0, true⟩, ⟨[], 0, 0, true⟩,
   [], ⟨[], 0, true⟩, ⟨[], 0, true⟩, ⟨[], 0, true⟩, ⟨[], 0, true⟩, ⟨[], 0, true⟩, none⟩

/-- A post-training result with all four basic checks failing. -/
def postAllUnfair : PosttrainResults ℕ :=
  ⟨⟨[], 1/2, 1/3, false⟩, ⟨1/3, false, none, none, []⟩, ⟨[], 1/2, false⟩,
   ⟨[], 1/2, 1/2, false⟩,
   [], ⟨[], 0, true⟩, ⟨[], 0, true⟩, ⟨[], 0, true⟩, ⟨[], 0, true⟩, ⟨[], 0, true⟩, none⟩

/-- The post-training result of the first (empty-input) call in the caching
scenario. -/
def c3PostResult : PosttrainResults ℕ := computePosttrain [] [] [] none

/-- The calculator state right after that first post-training call. -/
def c3PostState : CalcState ℕ := ⟨true, none, some c3PostResult, true⟩

/-- The pre-training result of the first (empty-input) call in the caching
scenario. -/
noncomputable def c3PreResult : PretrainResults ℕ := computePretrain 0 [] []

/-- The calculator state right after that first pre-training call. -/
noncomputable def c3PreState : CalcState ℕ := ⟨true, some c3PreResult, none, true⟩

/-- A drift monitor constructed with `window_size = 0`. -/
noncomputable def c4ZeroMonitor : MetricsDriftMonitor :=
  mkMetricsDriftMonitor [("m", 1/2)] 0 DetectMethod.threshold (1/10)

/-- An alert channel whose `send` succeeds. -/
def c9OkChannel : AlertChannel := fun _ => Except.ok true

/-- An alert channel whose `send` raises. -/
def c9BadChannel : AlertChannel := fun _ => Except.error "connection refused"

/-- An alerting system with defaults (`enabled`, threshold `"low"`) and one
healthy plus one failing channel. -/
def c9Alerting : FairnessAlerting :=
  ⟨⟨true, "low", none, 300⟩, [("console", c9OkChannel), ("webhook", c9BadChannel)], []⟩

/-- A drift result where the single tracked metric drifted by `0.4`. -/
noncomputable def c9Drift : DriftResult :=
  ⟨true, [("m", 2/5)], [("m", 2/5)], "threshold", 1/10,
   ⟨[("m", 9/10)], [("m", 1/2)], 1, none, none⟩⟩

/-- The detector that produced `c9Drift`. -/
noncomputable def c9Detector : FairnessDriftDetector :=
  ⟨[("m", 9/10)], DetectMethod.threshold, 1/10, 1/20⟩

/-! ## Helper lemmas -/

theorem pdUniqueAux_eq_nil {G : Type} [DecidableEq G] (g : G) :
    ∀ (l : List G) (seen : List G), (∀ x ∈ l, x = g) → g ∈ seen →
      pdUniqueAux seen l = [] := by
  intro l
  induction l with
  | nil => intro seen _ _; rfl
  | cons a t ih =>
    intro seen h hg
    have ha : a = g := h a (List.mem_cons_self a t)
    have hmem : a ∈ seen := ha ▸ hg
    simp only [pdUniqueAux, if_pos hmem]
    exact ih seen (fun x hx => h x (List.mem_cons_of_mem a hx)) hg

theorem pdUnique_of_all_eq {G : Type} [DecidableEq G] (g : G) (l : List G)
    (hne : l ≠ []) (h : ∀ x ∈ l, x = g) : pdUnique l = [g] := by
  cases l with
  | nil => exact absurd rfl hne
  | cons a t =>
    have ha : a = g := h a (List.mem_cons_self a t)
    subst ha
    have htail : pdUniqueAux [a] t = [] :=
      pdUniqueAux_eq_nil a t [a] (fun x hx => h x (List.mem_cons_of_mem a hx))
        (List.mem_cons_self a [])
    simp [pdUnique, pdUniqueAux, htail]

theorem listMax_singleton (a : ℚ) : listMax [a] = a := rfl

theorem listMin_singleton (a : ℚ) : listMin [a] = a := rfl

theorem ratio_self_one (r : ℚ) : (if 0 < r then r / r else 1) = 1 := by
  by_cases h : 0 < r
  · rw [if_pos h, div_self (ne_of_gt h)]
  · rw [if_neg h]

theorem filterMap_singleton_length_le {α β : Type} (f : α → Option β) (a : α) :
    (List.filterMap f [a]).length ≤ 1 := by
  cases h : f a <;> simp [List.filterMap, h]

/-! ## C10: disparate impact on the empty batch -/

/-- C10: for every prediction vector, `disparate_impact` on an empty group
vector does not fail and returns exactly `ratio = 1.0`,
`passes_80_rule = True`, no advantaged or disadvantaged group, and an empty
`by_group` mapping. -/
theorem disparate_impact_empty_batch {G : Type} [DecidableEq G] (y_pred : List Bool) :
    disparate_impact y_pred ([] : List G) =
      ⟨1, true, none, none, []⟩ := rfl

/-! ## C1: the summary score over the four basic checks -/

/-- C1: `_calculate_summary` counts violations over exactly the four checks
(statistical parity `is_fair`, disparate impact `passes_80_rule`, equal
opportunity `is_fair`, equalized odds `is_fair`), its overall score equals
`100 * (4 - violations) / 4`, zero violations give `100`, four give `0`, and
the score strictly decreases as the number of failed checks increases. -/
theorem summary_score_four_checks {G : Type} (post : PosttrainResults G) :
    (calculate_summary post).n_violations =
      ((if post.statistical_parity.is_fair then 0 else 1) +
       (if post.disparate_impact.passes_80_rule then 0 else 1) +
       (if post.equal_opportunity.is_fair then 0 else 1) +
       (if post.equalized_odds.is_fair then 0 else 1))
    ∧ (calculate_summary post).overall_fairness_score =
        100 * (4 - ((calculate_summary post).n_violations : ℚ)) / 4
    ∧ ((calculate_summary post).n_violations = 0 →
        (calculate_summary post).overall_fairness_score = 100)
    ∧ ((calculate_summary post).n_violations = 4 →
        (calculate_summary post).overall_fairness_score = 0)
    ∧ (∀ {H : Type} (post2 : PosttrainResults H),
        (calculate_summary post).n_violations < (calculate_summary post2).n_violations →
        (calculate_summary post2).overall_fairness_score <
          (calculate_summary post).overall_fairness_score) := by
  have hscore : ∀ {H : Type} (p : PosttrainResults H),
      (calculate_summary p).overall_fairness_score =
        ((4 - ((calculate_summary p).n_violations : ℚ)) / 4) * 100 := fun _ => rfl
  refine ⟨?_, ?_, ?_, ?_, ?_⟩
  · cases h1 : post.statistical_parity.is_fair <;>
      cases h2 : post.disparate_impact.passes_80_rule <;>
      cases h3 : post.equal_opportunity.is_fair <;>
      cases h4 : post.equalized_odds.is_fair <;>
      simp [calculate_summary, h1, h2, h3, h4]
  · rw [hscore]; ring
  · intro h0; rw [hscore, h0]; norm_num
  · intro h4; rw [hscore, h4]; norm_num
  · intro H post2 hlt
    rw [hscore, hscore]
    have : ((calculate_summary post).n_violations : ℚ) <
        ((calculate_summary post2).n_violations : ℚ) := by exact_mod_cast hlt
    linarith

/-- Witness for C1 at explicit post-training results: all-fair scores `100`,
all-unfair scores `0`, and one fewer violation means a strictly larger score. -/
theorem summary_score_four_checks_witness :
    ((calculate_summary postAllFair).n_violations = 0 ∧
      (calculate_summary postAllFair).overall_fairness_score = 100) ∧
    ((calculate_summary postAllUnfair).n_violations = 4 ∧
      (calculate_summary postAllUnfair).overall_fairness_score = 0) ∧
    (calculate_summary postAllUnfair).overall_fairness_score <
      (calculate_summary postAllFair).overall_fairness_score :=
  ⟨⟨by decide, (summary_score_four_checks postAllFair).2.2.1 (by decide)⟩,
   ⟨by decide, (summary_score_four_checks postAllUnfair).2.2.2.1 (by decide)⟩,
   (summary_score_four_checks postAllFair).2.2.2.2 postAllUnfair (by decide)⟩

/-! ## C2: single-group neutrality -/

theorem if_len_le_one (L : List ℚ) (X : ℚ) (h : L.length ≤ 1) :
    (if 1 < L.length then X else 0) = 0 := if_neg (by omega)

/-- C2: on a batch whose group vector holds exactly one distinct group value,
every group metric reports `difference == 0` (both differences for equalized
odds), and the cross-group ratios of statistical parity and disparate impact
are exactly `1.0`. -/
theorem single_group_neutrality {G : Type} [DecidableEq G] (g : G)
    (y_true y_pred : List Bool) (y_pred_proba : List ℚ) (n_bins : ℕ)
    (sensitive_attr : List G)
    (hne : sensitive_attr ≠ []) (hall : ∀ x ∈ sensitive_attr, x = g) :
    (statistical_parity y_pred sensitive_attr).difference = 0
    ∧ (statistical_parity y_pred sensitive_attr).ratio = 1
    ∧ (disparate_impact y_pred sensitive_attr).ratio = 1
    ∧ (equal_opportunity y_true y_pred sensitive_attr).difference = 0
    ∧ (equalized_odds y_true y_pred sensitive_attr).tpr_difference = 0
    ∧ (equalized_odds y_true y_pred sensitive_attr).fpr_difference = 0
    ∧ (false_negative_rate_difference y_true y_pred sensitive_attr).difference = 0
    ∧ (predictive_parity y_true y_pred sensitive_attr).difference = 0
    ∧ (negative_predictive_parity y_true y_pred sensitive_attr).difference = 0
    ∧ (accuracy_difference y_true y_pred sensitive_attr).difference = 0
    ∧ (treatment_equality y_true y_pred sensitive_attr).difference = 0
    ∧ (calibration_by_group y_true y_pred_proba sensitive_attr n_bins).difference = 0 := by
  have hu : pdUnique sensitive_attr = [g] := pdUnique_of_all_eq g sensitive_attr hne hall
  refine ⟨?_, ?_, ?_, ?_, ?_, ?_, ?_, ?_, ?_, ?_, ?_, ?_⟩
  · simp [statistical_parity, hu, listMax, listMin]
  · simp [statistical_parity, hu, listMax, listMin, ratio_self_one]
  · simp [disparate_impact, hu, listMax, listMin, ratio_self_one]
  · simp [equal_opportunity, hu, listMax, listMin]
  · simp [equalized_odds, hu, listMax, listMin]
  · simp [equalized_odds, hu, listMax, listMin]
  · simp [false_negative_rate_difference, hu, listMax, listMin]
  · simp [predictive_parity, hu, listMax, listMin]
  · simp [negative_predictive_parity, hu, listMax, listMin]
  · simp [accuracy_difference, hu, listMax, listMin]
  · simp only [treatment_equality, hu, List.map_cons, List.map_nil]
    exact if_len_le_one _ _ (filterMap_singleton_length_le _ _)
  · simp [calibration_by_group, hu, listMax, listMin]

/-- Witness for C2 on a concrete one-group batch. -/
theorem single_group_neutrality_witness :
    (([0, 0] : List ℕ) ≠ [] ∧ ∀ x ∈ ([0, 0] : List ℕ), x = 0) ∧
    ((statistical_parity [true, false] [0, 0]).difference = 0
    ∧ (statistical_parity [true, false] [0, 0]).ratio = 1
    ∧ (disparate_impact [true, false] [0, 0]).ratio = 1
    ∧ (equal_opportunity [true, true] [true, false] [0, 0]).difference = 0
    ∧ (equalized_odds [true, true] [true, false] [0, 0]).tpr_difference = 0
    ∧ (equalized_odds [true, true] [true, false] [0, 0]).fpr_difference = 0
    ∧ (false_negative_rate_difference [true, true] [true, false] [0, 0]).difference = 0
    ∧ (predictive_parity [true, true] [true, false] [0, 0]).difference = 0
    ∧ (negative_predictive_parity [true, true] [true, false] [0, 0]).difference = 0
    ∧ (accuracy_difference [true, true] [true, false] [0, 0]).difference = 0
    ∧ (treatment_equality [true, true] [true, false] [0, 0]).difference = 0
    ∧ (calibration_by_group [true, true] [1/2, 3/4] [0, 0] 10).difference = 0) :=
  ⟨⟨by decide, by decide⟩,
   single_group_neutrality 0 [true, true] [true, false] [1/2, 3/4] 10 [0, 0]
     (by decide) (by decide)⟩

/-! ## C7: treatment equality and infinite ratios -/

/-- C7: in `treatment_equality`, a group with `FP = 0 < FN` has its ratio
reported as `None` (the infinite ratio), and whenever fewer than two finite
ratios remain, the reported difference is `0.0`. -/
theorem treatment_equality_infinite_excluded {G : Type} [DecidableEq G]
    (y_true y_pred : List Bool) (sensitive_attr : List G) :
    (∀ (g : G) (stats : TEGroupStats),
        (g, stats) ∈ (treatment_equality y_true y_pred sensitive_attr).by_group →
        stats.false_positives = 0 → 0 < stats.false_negatives →
        stats.fn_fp_ratio = none)
    ∧ (((treatment_equality y_true y_pred sensitive_attr).by_group.filterMap
          (fun p => p.2.fn_fp_ratio)).length < 2 →
        (treatment_equality y_true y_pred sensitive_attr).difference = 0) := by
  constructor
  · intro g stats hmem hfp hfn
    simp only [treatment_equality, List.mem_map] at hmem
    obtain ⟨g', _, heq⟩ := hmem
    cases heq
    dsimp only at hfp hfn ⊢
    rw [hfp] at *
    simp only [lt_self_iff_false, if_false, if_neg (lt_irrefl 0)]
    rw [if_pos hfn]
  · intro hlen
    simp only [treatment_equality] at hlen ⊢
    exact if_len_le_one _ _ (by omega)

/-- Witness for C7: a two-group batch where one group has `FP = 0, FN = 1`
(ratio `None`) leaving a single finite ratio, so the difference defaults to
`0.0`. -/
theorem treatment_equality_infinite_excluded_witness :
    ((0, TEGroupStats.mk none 1 0) ∈
        (treatment_equality [true, false] [false, false] [0, 1]).by_group
      ∧ (TEGroupStats.mk none 1 0).false_positives = 0
      ∧ 0 < (TEGroupStats.mk none 1 0).false_negatives
      ∧ (TEGroupStats.mk none 1 0).fn_fp_ratio = none)
    ∧ (((treatment_equality [true, false] [false, false] [0, 1]).by_group.filterMap
          (fun p => p.2.fn_fp_ratio)).length < 2
      ∧ (treatment_equality [true, false] [false, false] [(0 : ℕ), 1]).difference = 0) :=
  ⟨⟨by decide, by decide, by decide,
    (treatment_equality_infinite_excluded [true, false] [false, false] [0, 1]).1
      0 (TEGroupStats.mk none 1 0) (by decide) (by decide) (by decide)⟩,
   ⟨by decide,
    (treatment_equality_infinite_excluded [true, false] [false, false] [0, 1]).2
      (by decide)⟩⟩

/-! ## C5 and C6: drift detection methods -/

theorem assoc_nodup_unique {α β : Type} {l : List (α × β)} {a : α} {b1 b2 : β}
    (hnd : (l.map Prod.fst).Nodup) (h1 : (a, b1) ∈ l) (h2 : (a, b2) ∈ l) : b1 = b2 := by
  induction l with
  | nil => simp at h1
  | cons p t ih =>
    simp only [List.map_cons, List.nodup_cons] at hnd
    obtain ⟨hp, hnd'⟩ := hnd
    rcases List.mem_cons.mp h1 with h1' | h1' <;> rcases List.mem_cons.mp h2 with h2' | h2'
    · exact ((Prod.mk.injEq a b1 a b2).mp (h1'.trans h2'.symm)).2
    · have hkey : a ∈ List.map Prod.fst t := List.mem_map.mpr ⟨(a, b2), h2', rfl⟩
      have hpa : p.1 = a := by rw [← h1']
      exact absurd hkey (hpa ▸ hp)
    · have hkey : a ∈ List.map Prod.fst t := List.mem_map.mpr ⟨(a, b1), h1', rfl⟩
      have hpa : p.1 = a := by rw [← h2']
      exact absurd hkey (hpa ▸ hp)
    · exact ih hnd' h1' h2'

/-- C5: with the `threshold` method, a baseline metric present in the new
metrics is flagged as drifted iff `|new − baseline|` is strictly greater than
the threshold; a change exactly equal to the threshold is not flagged. -/
theorem threshold_flag_iff (baseline new_metrics : List (String × ℝ))
    (t b v : ℝ) (name : String)
    (hnd : (baseline.map Prod.fst).Nodup) (hmem : (name, b) ∈ baseline)
    (hlook : new_metrics.lookup name = some v) :
    ((∃ s, (name, s) ∈ (detect_threshold baseline new_metrics t).drifted_metrics) ↔
      t < |v - b|)
    ∧ (|v - b| = t →
      ¬∃ s, (name, s) ∈ (detect_threshold baseline new_metrics t).drifted_metrics) := by
  have hiff : (∃ s, (name, s) ∈ (detect_threshold baseline new_metrics t).drifted_metrics) ↔
      t < |v - b| := by
    constructor
    · rintro ⟨s, hs⟩
      simp only [detect_threshold, List.mem_filter, List.mem_filterMap,
        decide_eq_true_eq] at hs
      obtain ⟨⟨kv, hkv, hf⟩, hts⟩ := hs
      rcases hl : new_metrics.lookup kv.1 with _ | nv
      · rw [hl] at hf; simp at hf
      · rw [hl] at hf
        simp only [Option.map_some'] at hf
        have hf2 : (kv.1, |nv - kv.2|) = (name, s) := Option.some.inj hf
        obtain ⟨hk1, hk2⟩ := Prod.mk.injEq .. |>.mp hf2
        have hb : kv.2 = b := by
          refine assoc_nodup_unique hnd ?_ hmem
          rw [← hk1]
          simpa using hkv
        have hv : nv = v := by
          rw [hk1] at hl
          rw [hl] at hlook
          exact Option.some.inj hlook
        rw [← hk2, hv, hb] at hts
        exact hts
    · intro ht
      refine ⟨|v - b|, ?_⟩
      simp only [detect_threshold, List.mem_filter, List.mem_filterMap,
        decide_eq_true_eq]
      refine ⟨⟨(name, b), hmem, ?_⟩, ht⟩
      show (new_metrics.lookup name).map _ = _
      rw [hlook]
      rfl
  refine ⟨hiff, fun heq hex => ?_⟩
  have := hiff.mp hex
  rw [heq] at this
  exact lt_irrefl t this

/-- Witness for C5: baseline `0.5`, new value `0.7`, threshold `0.1`: the
metric is flagged since `0.2 > 0.1`, and a change equal to the threshold would
not be. -/
theorem threshold_flag_iff_witness :
    (([("sp", (1/2 : ℝ))].map Prod.fst).Nodup
    ∧ ("sp", (1/2 : ℝ)) ∈ [("sp", (1/2 : ℝ))]
    ∧ ([("sp", (7/10 : ℝ))].lookup "sp" = some (7/10))
    ∧ ((∃ s, ("sp", s) ∈
        (detect_threshold [("sp", 1/2)] [("sp", 7/10)] (1/10)).drifted_metrics) ↔
        (1/10 : ℝ) < |7/10 - 1/2|)
    ∧ (|(7/10 : ℝ) - 1/2| = 1/10 →
        ¬∃ s, ("sp", s) ∈
          (detect_threshold [("sp", 1/2)] [("sp", 7/10)] (1/10)).drifted_metrics)) :=
  ⟨by simp, by simp, rfl,
   (threshold_flag_iff [("sp", 1/2)] [("sp", 7/10)] (1/10) (1/2) (7/10) "sp"
      (by simp) (by simp) rfl).1,
   (threshold_flag_iff [("sp", 1/2)] [("sp", 7/10)] (1/10) (1/2) (7/10) "sp"
      (by simp) (by simp) rfl).2⟩

/-- C6: on every baseline, threshold, and new-metrics input, the `ks` method
computes the same drift scores, the same drifted metrics, and the same drift
decision (and the same reported threshold) as the `threshold` method; the two
results differ only in the method tag (and the free-form details). -/
theorem ks_same_as_threshold (baseline new_metrics : List (String × ℝ)) (t : ℝ) :
    (detect_ks baseline new_metrics t).drift_scores =
      (detect_threshold baseline new_metrics t).drift_scores
    ∧ (detect_ks baseline new_metrics t).drifted_metrics =
      (detect_threshold baseline new_metrics t).drifted_metrics
    ∧ (detect_ks baseline new_metrics t).has_drift =
      (detect_threshold baseline new_metrics t).has_drift
    ∧ (detect_ks baseline new_metrics t).threshold =
      (detect_threshold baseline new_metrics t).threshold
    ∧ (detect_ks baseline new_metrics t).method = "ks"
    ∧ (detect_threshold baseline new_metrics t).method = "threshold" :=
  ⟨rfl, rfl, rfl, rfl, rfl, rfl⟩

/-! ## C4: the drift monitor's observation window -/

theorem window_step {α : Type} (W : ℕ) (hW : 0 < W) (l : List α) (e : α) :
    (if W < (l.drop (l.length - W) ++ [e]).length
     then pySliceLast W (l.drop (l.length - W) ++ [e])
     else l.drop (l.length - W) ++ [e])
    = (l ++ [e]).drop (l.length + 1 - W) := by
  rcases lt_or_le l.length W with hlt | hle
  · have h0 : l.length - W = 0 := Nat.sub_eq_zero_of_le (le_of_lt hlt)
    have h1 : l.length + 1 - W = 0 := Nat.sub_eq_zero_of_le hlt
    rw [h0, List.drop_zero, h1, List.drop_zero, if_neg]
    simp only [List.length_append, List.length_cons, List.length_nil]
    omega
  · have hlenA : (l.drop (l.length - W)).length = W := by
      rw [List.length_drop]; omega
    rw [if_pos (by simp only [List.length_append, List.length_cons, List.length_nil, hlenA]; omega)]
    unfold pySliceLast
    rw [if_neg (by omega)]
    have hlen2 : (l.drop (l.length - W) ++ [e]).length - W = 1 := by
      simp only [List.length_append, List.length_cons, List.length_nil, hlenA]; omega
    rw [hlen2, List.drop_append_of_le_length (by omega : 1 ≤ (l.drop (l.length - W)).length),
      List.drop_drop, List.drop_append_of_le_length (by omega : l.length + 1 - W ≤ l.length)]
    congr 2
    omega

theorem run_observations_history (W : ℕ) (hW : 0 < W) :
    ∀ (obs : List (List (String × ℝ) × Option String)) (m : MetricsDriftMonitor)
      (pre : List ObservationEntry),
      m.window_size = W →
      m.history = pre.drop (pre.length - W) →
      (run_observations m obs).history =
        (pre ++ obs.map (obsEntry m.detector)).drop
          ((pre ++ obs.map (obsEntry m.detector)).length - W) := by
  intro obs
  induction obs with
  | nil =>
    intro m pre hw hh
    simpa [run_observations] using hh
  | cons o rest ih =>
    intro m pre hw hh
    have hstep : run_observations m (o :: rest) =
        run_observations (add_observation m o.1 o.2).2 rest := rfl
    rw [hstep]
    have hdet : (add_observation m o.1 o.2).2.detector = m.detector := rfl
    have hwin : (add_observation m o.1 o.2).2.window_size = W := hw
    have hhist : (add_observation m o.1 o.2).2.history =
        (pre ++ [obsEntry m.detector o]).drop
          ((pre ++ [obsEntry m.detector o]).length - W) := by
      show (let h := m.history ++ [ObservationEntry.mk o.2 o.1 (m.detector.detect o.1)];
            if m.window_size < h.length then pySliceLast m.window_size h else h) = _
      rw [hh, hw]
      have := window_step W hW pre (obsEntry m.detector o)
      simp only [List.length_append, List.length_cons, List.length_nil]
      simpa [obsEntry, List.length_append] using this
    have := ih (add_observation m o.1 o.2).2 (pre ++ [obsEntry m.detector o]) hwin hhist
    rw [hdet] at this
    rw [this]
    simp [List.append_assoc]

/-- C4 counterexample: a monitor constructed with `window_size = 0` retains an
inserted observation (`history[-0:]` is the whole list), so after
`window_size + 1` insertions the history length is `1`, not `window_size`. -/
theorem window_eviction_counterexample :
    (run_observations c4ZeroMonitor [([("m", 1/2)], none)]).history.length = 1
    ∧ c4ZeroMonitor.window_size = 0 := by
  constructor
  · simp [run_observations, add_observation, c4ZeroMonitor, mkMetricsDriftMonitor, pySliceLast]
  · rfl

/-- C4 (amended to `window_size ≥ 1`): after `W + k` insertions into a freshly
constructed monitor, the history is exactly the entries of the most recent `W`
insertions in insertion order, and its length is `W`. -/
theorem window_eviction (baseline : List (String × ℝ)) (method : DetectMethod)
    (t : ℝ) (W k : ℕ) (hW : 0 < W)
    (obs : List (List (String × ℝ) × Option String)) (hlen : obs.length = W + k) :
    (run_observations (mkMetricsDriftMonitor baseline W method t) obs).history =
      (obs.map (obsEntry (mkMetricsDriftMonitor baseline W method t).detector)).drop
        (obs.length - W)
    ∧ (run_observations (mkMetricsDriftMonitor baseline W method t) obs).history.length
      = W := by
  have h := run_observations_history W hW obs (mkMetricsDriftMonitor baseline W method t)
    [] rfl (by simp [mkMetricsDriftMonitor])
  simp only [List.nil_append, List.length_map] at h
  refine ⟨h, ?_⟩
  rw [h, List.length_drop, List.length_map]
  omega

/-- Witness for C4 on a window of size `1` receiving `1 + 1` observations. -/
theorem window_eviction_witness :
    (0 : ℕ) < 1
    ∧ ([([("m", (3/5 : ℝ))], none), ([("m", 7/10)], some "t2")]).length = 1 + 1
    ∧ ((run_observations (mkMetricsDriftMonitor [("m", 1/2)] 1 DetectMethod.threshold (1/10))
          [([("m", (3/5 : ℝ))], none), ([("m", 7/10)], some "t2")]).history =
        (([([("m", (3/5 : ℝ))], none), ([("m", 7/10)], some "t2")]).map
          (obsEntry (mkMetricsDriftMonitor [("m", 1/2)] 1 DetectMethod.threshold (1/10)).detector)).drop
          (([([("m", (3/5 : ℝ))], none), ([("m", 7/10)], some "t2")]).length - 1)
      ∧ (run_observations (mkMetricsDriftMonitor [("m", 1/2)] 1 DetectMethod.threshold (1/10))
          [([("m", (3/5 : ℝ))], none), ([("m", 7/10)], some "t2")]).history.length = 1) :=
  ⟨by decide, rfl,
   window_eviction [("m", 1/2)] DetectMethod.threshold (1/10) 1 1 (by decide)
     [([("m", (3/5 : ℝ))], none), ([("m", 7/10)], some "t2")] rfl⟩

/-! ## C3: the calculator's cache -/

/-- C3 counterexample: with `cache_results=True`, after a successful first
call, a second call whose inputs fail length validation raises instead of
returning the cached result, so the claim does not hold for every pair of
inputs. -/
theorem caching_counterexample :
    calculate_posttrain_metrics (mkFairnessCalculator ℕ true) [] [] [] none =
      Except.ok (c3PostResult, c3PostState)
    ∧ calculate_posttrain_metrics c3PostState [true] [] [] none =
      Except.error "y_true and y_pred must have same length"
    ∧ (Except.error "y_true and y_pred must have same length" :
        Except String (PosttrainResults ℕ × CalcState ℕ)) ≠
        Except.ok (c3PostResult, c3PostState) :=
  ⟨rfl, rfl, by simp⟩

/-- C3 (amended to validated inputs): with `cache_results=True`, once a first
call to `calculate_posttrain_metrics` (resp. `calculate_pretrain_metrics`)
succeeds, every second call whose inputs pass validation returns the identical
cached result and state — even with different inputs — and `clear_cache`
empties both cache entries. -/
theorem caching_returns_first_result {G : Type} [DecidableEq G] :
    (∀ (yt1 yp1 : List Bool) (at1 : List G) (pr1 : Option (List ℚ))
       (r1 : PosttrainResults G) (s1 : CalcState G),
       calculate_posttrain_metrics (mkFairnessCalculator G true) yt1 yp1 at1 pr1 =
         Except.ok (r1, s1) →
       ∀ (yt2 yp2 : List Bool) (at2 : List G) (pr2 : Option (List ℚ)),
         validatePosttrain yt2 yp2 at2 pr2 = Except.ok () →
         calculate_posttrain_metrics s1 yt2 yp2 at2 pr2 = Except.ok (r1, s1))
    ∧ (∀ (X1 : ℕ) (y1 : List ℤ) (at1 : List G)
         (r1 : PretrainResults G) (s1 : CalcState G),
       calculate_pretrain_metrics (mkFairnessCalculator G true) X1 y1 at1 =
         Except.ok (r1, s1) →
       ∀ (X2 : ℕ) (y2 : List ℤ) (at2 : List G),
         validatePretrain X2 y2 at2 = Except.ok () →
         calculate_pretrain_metrics s1 X2 y2 at2 = Except.ok (r1, s1))
    ∧ (∀ s : CalcState G, (clear_cache s).cache_pretrain = none ∧
        (clear_cache s).cache_posttrain = none) := by
  refine ⟨?_, ?_, fun s => ⟨rfl, rfl⟩⟩
  · intro yt1 yp1 at1 pr1 r1 s1 h1 yt2 yp2 at2 pr2 h2
    cases hv : validatePosttrain yt1 yp1 at1 pr1 with
    | error e => simp [calculate_posttrain_metrics, hv] at h1
    | ok u =>
      simp only [calculate_posttrain_metrics, hv, mkFairnessCalculator, if_true,
        Except.ok.injEq, Prod.mk.injEq] at h1
      obtain ⟨hr, hs⟩ := h1
      subst hr
      subst hs
      simp [calculate_posttrain_metrics, h2]
  · intro X1 y1 at1 r1 s1 h1 X2 y2 at2 h2
    cases hv : validatePretrain X1 y1 at1 with
    | error e => simp [calculate_pretrain_metrics, hv] at h1
    | ok u =>
      simp only [calculate_pretrain_metrics, hv, mkFairnessCalculator, if_true,
        Except.ok.injEq, Prod.mk.injEq] at h1
      obtain ⟨hr, hs⟩ := h1
      subst hr
      subst hs
      simp [calculate_pretrain_metrics, h2]

/-- Witness for C3: an empty-batch first call populates the cache; a second
call with different (valid) inputs returns the identical cached pair; and
`clear_cache` empties the cache. -/
theorem caching_returns_first_result_witness :
    (calculate_posttrain_metrics (mkFairnessCalculator ℕ true) [] [] [] none =
        Except.ok (c3PostResult, c3PostState)
    ∧ validatePosttrain [true] [true] ([5] : List ℕ) none = Except.ok ()
    ∧ calculate_posttrain_metrics c3PostState [true] [true] [5] none =
        Except.ok (c3PostResult, c3PostState))
    ∧ (calculate_pretrain_metrics (mkFairnessCalculator ℕ true) 0 [] [] =
        Except.ok (c3PreResult, c3PreState)
    ∧ validatePretrain 1 [3] ([7] : List ℕ) = Except.ok ()
    ∧ calculate_pretrain_metrics c3PreState 1 [3] [7] =
        Except.ok (c3PreResult, c3PreState))
    ∧ ((clear_cache c3PostState).cache_pretrain = none
    ∧ (clear_cache c3PostState).cache_posttrain = none) :=
  ⟨⟨rfl, rfl,
    caching_returns_first_result.1 [] [] [] none c3PostResult c3PostState rfl
      [true] [true] [5] none rfl⟩,
   ⟨rfl, rfl,
    caching_returns_first_result.2.1 0 [] [] c3PreResult c3PreState rfl 1 [3] [7] rfl⟩,
   caching_returns_first_result.2.2 c3PostState⟩

/-! ## C9: alert dispatch -/

/-- C9: `send_drift_alert` returns the empty map when alerting is disabled,
when the result has no drift, or when the computed severity is ordinally below
the configured threshold; otherwise it attempts every registered channel in
order, recording a raised exception as `False` for that channel while the
remaining channels are still attempted and no exception reaches the caller.
(The hypothesis keeps the input inside the Python function's domain: with a
drifted metric and an empty baseline the severity computation itself would
divide by zero.) -/
theorem send_drift_alert_dispatch (a : FairnessAlerting) (dr : DriftResult)
    (det : FairnessDriftDetector) (ts : Option String)
    (_hb : dr.drifted_metrics ≠ [] → det.baseline_metrics ≠ []) :
    (a.config.enabled = false → send_drift_alert a dr det ts = [])
    ∧ (dr.has_drift = false → send_drift_alert a dr det ts = [])
    ∧ (severityLevel (get_drift_summary det dr).severity <
        severityLevel a.config.severity_threshold →
        send_drift_alert a dr det ts = [])
    ∧ (a.config.enabled = true → dr.has_drift = true →
        severityLevel a.config.severity_threshold ≤
          severityLevel (get_drift_summary det dr).severity →
        send_drift_alert a dr det ts =
          a.channels.map (fun nc =>
            (nc.1, channelOutcome (nc.2 (alert_payload dr det ts))))) := by
  refine ⟨?_, ?_, ?_, ?_⟩
  · intro h
    simp [send_drift_alert, h]
  · intro h
    by_cases he : a.config.enabled <;> simp [send_drift_alert, he, h]
  · intro h
    have hna : should_alert a.config (get_drift_summary det dr).severity = false := by
      simp only [should_alert, decide_eq_false_iff_not]
      omega
    by_cases he : a.config.enabled <;> by_cases hd : dr.has_drift <;>
      simp [send_drift_alert, he, hd, hna]
  · intro he hd hge
    have hsa : should_alert a.config (get_drift_summary det dr).severity = true := by
      simpa only [should_alert, decide_eq_true_eq]
    simp [send_drift_alert, he, hd, hsa]

/-- Witness for C9: an enabled low-threshold alerting system with one healthy
and one raising channel, on a drifted result of high severity. -/
theorem send_drift_alert_dispatch_witness :
    (c9Drift.drifted_metrics ≠ [] → c9Detector.baseline_metrics ≠ [])
    ∧ ((c9Alerting.config.enabled = false →
          send_drift_alert c9Alerting c9Drift c9Detector none = [])
    ∧ (c9Drift.has_drift = false →
          send_drift_alert c9Alerting c9Drift c9Detector none = [])
    ∧ (severityLevel (get_drift_summary c9Detector c9Drift).severity <
          severityLevel c9Alerting.config.severity_threshold →
          send_drift_alert c9Alerting c9Drift c9Detector none = [])
    ∧ (c9Alerting.config.enabled = true → c9Drift.has_drift = true →
          severityLevel c9Alerting.config.severity_threshold ≤
            severityLevel (get_drift_summary c9Detector c9Drift).severity →
          send_drift_alert c9Alerting c9Drift c9Detector none =
            c9Alerting.channels.map (fun nc =>
              (nc.1, channelOutcome (nc.2 (alert_payload c9Drift c9Detector none)))))) :=
  ⟨fun _ => by simp [c9Detector],
   send_drift_alert_dispatch c9Alerting c9Drift c9Detector none
     (fun _ => by simp [c9Detector])⟩

/-! ## C8: symmetry and boundedness of the JS divergence -/

theorem normalizeDist_nonneg {n : ℕ} (d : Fin n → ℝ) (hd : ∀ i, 0 ≤ d i) (i : Fin n) :
    0 ≤ normalizeDist d i :=
  div_nonneg (hd i) (Finset.sum_nonneg fun j _ => hd j)

theorem sum_normalizeDist {n : ℕ} (d : Fin n → ℝ) (h : (∑ j, d j) ≠ 0) :
    ∑ i, normalizeDist d i = 1 := by
  unfold normalizeDist
  rw [← Finset.sum_div]
  exact div_self h

theorem epsSmooth_pos {n : ℕ} (hn : 0 < n) (d : Fin n → ℝ) (hd : ∀ i, 0 ≤ d i) :
    (∀ i, 0 < epsSmooth d i) ∧ ∑ i, epsSmooth d i = 1 := by
  have hadd : ∀ i, 0 < normalizeDist d i + 1 / 10 ^ 10 := fun i =>
    add_pos_of_nonneg_of_pos (normalizeDist_nonneg d hd i) (by norm_num)
  have hne : Nonempty (Fin n) := ⟨⟨0, hn⟩⟩
  have hsum : (0 : ℝ) < ∑ i, (normalizeDist d i + 1 / 10 ^ 10) :=
    Finset.sum_pos (fun i _ => hadd i) Finset.univ_nonempty
  exact ⟨fun i => div_pos (hadd i) hsum, sum_normalizeDist _ (ne_of_gt hsum)⟩

theorem sum_mul_log_div_nonneg {n : ℕ} (p q : Fin n → ℝ)
    (hp : ∀ i, 0 < p i) (hq : ∀ i, 0 < q i) (hs : ∑ i, q i ≤ ∑ i, p i) :
    0 ≤ ∑ i, p i * Real.log (p i / q i) := by
  have key : ∀ i ∈ Finset.univ, p i - q i ≤ p i * Real.log (p i / q i) := by
    intro i _
    have h1 : Real.log (q i / p i) ≤ q i / p i - 1 :=
      Real.log_le_sub_one_of_pos (div_pos (hq i) (hp i))
    have h2 : Real.log (p i / q i) = -Real.log (q i / p i) := by
      rw [← Real.log_inv, inv_div]
    have h3 : 1 - q i / p i ≤ Real.log (p i / q i) := by rw [h2]; linarith
    have h4 : p i * (1 - q i / p i) = p i - q i := by
      field_simp [ne_of_gt (hp i)]
    calc p i - q i = p i * (1 - q i / p i) := h4.symm
    _ ≤ p i * Real.log (p i / q i) := mul_le_mul_of_nonneg_left h3 (le_of_lt (hp i))
  have hsum := Finset.sum_le_sum key
  rw [Finset.sum_sub_distrib] at hsum
  linarith

theorem kl_divergence_nonneg {n : ℕ} (hn : 0 < n) (d1 d2 : Fin n → ℝ)
    (h1 : ∀ i, 0 ≤ d1 i) (h2 : ∀ i, 0 ≤ d2 i) : 0 ≤ kl_divergence d1 d2 := by
  obtain ⟨hp1, hs1⟩ := epsSmooth_pos hn d1 h1
  obtain ⟨hp2, hs2⟩ := epsSmooth_pos hn d2 h2
  exact sum_mul_log_div_nonneg _ _ hp1 hp2 (by rw [hs1, hs2])

/-- C8: for every pair of valid discrete distributions (non-negative entries,
positive sum, equal length), the JS divergence is symmetric in its arguments
and its value lies in `[0, 1]`. -/
theorem js_divergence_symm_bounded {n : ℕ} (a b : Fin n → ℝ)
    (ha : ∀ i, 0 ≤ a i) (hb : ∀ i, 0 ≤ b i)
    (hsa : 0 < ∑ i, a i) (hsb : 0 < ∑ i, b i) :
    js_divergence a b = js_divergence b a
    ∧ 0 ≤ js_divergence a b ∧ js_divergence a b ≤ 1 := by
  have hn : 0 < n := by
    rcases Nat.eq_zero_or_pos n with h | h
    · subst h
      simp at hsa
    · exact h
  have hmid : jsMid a b = jsMid b a := by
    funext i
    unfold jsMid
    ring
  refine ⟨?_, ?_, ?_⟩
  · unfold js_divergence
    rw [hmid]
    congr 1
    ring
  · have hnda : ∀ i, 0 ≤ normalizeDist a i := normalizeDist_nonneg a ha
    have hndb : ∀ i, 0 ≤ normalizeDist b i := normalizeDist_nonneg b hb
    have hmidnn : ∀ i, 0 ≤ jsMid a b i := fun i =>
      mul_nonneg (by norm_num) (add_nonneg (hnda i) (hndb i))
    have hk1 : 0 ≤ kl_divergence (normalizeDist a) (jsMid a b) :=
      kl_divergence_nonneg hn _ _ hnda hmidnn
    have hk2 : 0 ≤ kl_divergence (normalizeDist b) (jsMid a b) :=
      kl_divergence_nonneg hn _ _ hndb hmidnn
    have hlog : 0 < Real.log 2 := Real.log_pos one_lt_two
    exact le_min (div_nonneg (by linarith) hlog.le) zero_le_one
  · exact min_le_right _ _

/-- Witness for C8 at the concrete distributions `[3/4, 1/4]` and `[1/2, 1/2]`. -/
theorem js_divergence_symm_bounded_witness :
    ((∀ i, 0 ≤ (![3/4, 1/4] : Fin 2 → ℝ) i)
    ∧ (∀ i, 0 ≤ (![1/2, 1/2] : Fin 2 → ℝ) i)
    ∧ 0 < ∑ i, (![3/4, 1/4] : Fin 2 → ℝ) i
    ∧ 0 < ∑ i, (![1/2, 1/2] : Fin 2 → ℝ) i)
    ∧ (js_divergence ![3/4, 1/4] ![1/2, 1/2] = js_divergence ![1/2, 1/2] ![3/4, 1/4]
    ∧ 0 ≤ js_divergence ![3/4, 1/4] ![1/2, 1/2]
    ∧ js_divergence ![3/4, 1/4] ![1/2, 1/2] ≤ 1) := by
  have h1 : ∀ i, 0 ≤ (![3/4, 1/4] : Fin 2 → ℝ) i := by
    intro i
    fin_cases i <;> norm_num
  have h2 : ∀ i, 0 ≤ (![1/2, 1/2] : Fin 2 → ℝ) i := by
    intro i
    fin_cases i <;> norm_num
  have h3 : 0 < ∑ i, (![3/4, 1/4] : Fin 2 → ℝ) i := by
    norm_num [Fin.sum_univ_two]
  have h4 : 0 < ∑ i, (![1/2, 1/2] : Fin 2 → ℝ) i := by
    norm_num [Fin.sum_univ_two]
  exact ⟨⟨h1, h2, h3, h4⟩, js_divergence_symm_bounded _ _ h1 h2 h3 h4⟩

end JusticeAI
